import Mathlib

/-!
Verification of the resource metering and fee-charging engine in
`linera-execution/src/resources.rs`.

The Rust code is shallowly embedded: machine integers (`u32`, `u64`, `u128`,
`i32`) become `Nat`/`Int` with explicit width bounds at every checked
operation, `Duration` becomes a nanosecond count bounded by Rust's
`Duration::MAX`, fallible operations return `Except`, and in-place mutation
becomes explicit state passing (each method returns its result together with
the updated state).  A Rust `panic!`/`expect` that can actually fire is
modelled by an `Option` wrapper (`none` = panic).
-/

namespace Resources

/-- Maximum value of a Rust `u32`. -/
def u32Max : Nat := 2 ^ 32 - 1

/-- Maximum value of a Rust `u64`. -/
def u64Max : Nat := 2 ^ 64 - 1

/-- Maximum value of a Rust `i32`, as an integer. -/
def i32Max : Int := 2 ^ 31 - 1

/-- Minimum value of a Rust `i32`, as an integer. -/
def i32Min : Int := -(2 ^ 31)

/-- `Amount` in `linera-base` is backed by a `u128`; this is `Amount::MAX`. -/
def amountMax : Nat := 2 ^ 128 - 1

/-- Rust `Duration::MAX` in nanoseconds: `u64::MAX` seconds plus `999_999_999`
nanoseconds. -/
def durationMax : Nat := u64Max * 1000000000 + 999999999

/-- `Duration::from_millis`, in nanoseconds. -/
def durationFromMillis (ms : Nat) : Nat := ms * 1000000

/-- `linera_base::data_types::ArithmeticError`. -/
inductive ArithmeticError where
  | Overflow
  | Underflow
deriving DecidableEq, Repr

/-- `linera_base::vm::VmRuntime`. -/
inductive VmRuntime where
  | Wasm
  | Evm
deriving DecidableEq, Repr

/-- The variants of `ExecutionError` surfaced by `resources.rs`.  Amounts and
balances are carried as their numeric values. -/
inductive ExecutionError where
  | ArithmeticError (e : ArithmeticError)
  | FeesExceedFunding (fees : Nat) (balance : Nat)
  | MaximumFuelExceeded (vm : VmRuntime)
  | ExcessiveRead
  | ExcessiveWrite
  | BlockTooLarge
  | MaximumServiceOracleExecutionTimeExceeded
  | ServiceOracleResponseTooLarge
  | BlobTooLarge
deriving DecidableEq, Repr

/-- Checked `u128` addition of two `Amount`s (`Amount::try_add`). -/
def Amount.tryAdd (x y : Nat) : Except ArithmeticError Nat :=
  if x + y ≤ amountMax then .ok (x + y) else .error .Overflow

/-- Checked `u128` subtraction of two `Amount`s (`Amount::try_sub`). -/
def Amount.trySub (x y : Nat) : Except ArithmeticError Nat :=
  if y ≤ x then .ok (x - y) else .error .Underflow

/-- Loop of `Sources::balance`: fold `try_add_assign` over the sources,
starting from `Amount::ZERO`. -/
def sourcesBalanceFrom (amount : Nat) : List Nat → Except ArithmeticError Nat
  | [] => .ok amount
  | s :: rest =>
    match Amount.tryAdd amount s with
    | .ok amount2 => sourcesBalanceFrom amount2 rest
    | .error e => .error e

/-- `Sources::balance`: sum of all source amounts via checked addition. -/
def Sources.balance (sources : List Nat) : Except ArithmeticError Nat :=
  sourcesBalanceFrom 0 sources

/-- `Sources::try_add_assign`: credits the last source.  `none` models the
`expect("at least one source")` panic on an empty source list. -/
def Sources.try_add_assign (sources : List Nat) (other : Nat) :
    Option ((Except ArithmeticError Unit) × List Nat) :=
  match sources.getLast? with
  | none => none
  | some last =>
    match Amount.tryAdd last other with
    | .ok v => some (.ok (), sources.dropLast ++ [v])
    | .error e => some (.error e, sources)

/-- Loop of `Sources::try_sub_assign`: drain the sources front to back.  If the
current source covers the remaining amount, subtract and stop; otherwise zero
the source, reduce the amount still owed, and continue.  If the list is
exhausted with a positive remainder, fail with `Underflow`. -/
def sourcesSubLoop (other : Nat) : List Nat → (Except ArithmeticError Unit) × List Nat
  | [] => (if 0 < other then .error .Underflow else .ok (), [])
  | s :: rest =>
    match Amount.trySub s other with
    | .ok v => (.ok (), v :: rest)
    | .error _ =>
      let res := sourcesSubLoop (other - s) rest
      (res.1, 0 :: res.2)

/-- `Sources::try_sub_assign`. -/
def Sources.try_sub_assign (sources : List Nat) (other : Nat) :
    (Except ArithmeticError Unit) × List Nat :=
  sourcesSubLoop other sources

/-- The two `BalanceHolder` implementations in `resources.rs`: a single
`Amount`, or a `Sources` fallback list. -/
inductive Account where
  | amount (x : Nat)
  | sources (l : List Nat)
deriving Repr

/-- `BalanceHolder::balance` for both implementations. -/
def Account.balance : Account → Except ArithmeticError Nat
  | .amount x => .ok x
  | .sources l => Sources.balance l

/-- `BalanceHolder::try_sub_assign` for both implementations, returning the
result together with the post-call account state (mutations made before a
failure persist, as in the Rust `&mut self` methods). -/
def Account.try_sub_assign : Account → Nat → (Except ArithmeticError Unit) × Account
  | .amount x, other =>
    match Amount.trySub x other with
    | .ok v => (.ok (), .amount v)
    | .error e => (.error e, .amount x)
  | .sources l, other =>
    let res := Sources.try_sub_assign l other
    (res.1, .sources res.2)

/-- `BalanceHolder::try_add_assign` for both implementations; `none` is the
panic of `Sources::try_add_assign` on an empty list. -/
def Account.try_add_assign : Account → Nat → Option ((Except ArithmeticError Unit) × Account)
  | .amount x, other =>
    match Amount.tryAdd x other with
    | .ok v => some (.ok (), .amount v)
    | .error e => some (.error e, .amount x)
  | .sources l, other =>
    match Sources.try_add_assign l other with
    | none => none
    | some res => some (res.1, .sources res.2)

/-- `ResourceTracker`: the accumulator of resource counters.  Unsigned fields
are `Nat` (their Rust widths are enforced at each checked addition),
`bytes_stored` is a signed `Int` (`i32`), `service_oracle_execution` is a
`Duration` in nanoseconds, and `grants` is an `Amount`. -/
structure ResourceTracker where
  block_size : Nat := 0
  evm_fuel : Nat := 0
  wasm_fuel : Nat := 0
  read_operations : Nat := 0
  write_operations : Nat := 0
  bytes_runtime : Nat := 0
  bytes_read : Nat := 0
  bytes_written : Nat := 0
  blobs_read : Nat := 0
  blobs_published : Nat := 0
  blob_bytes_read : Nat := 0
  blob_bytes_published : Nat := 0
  bytes_stored : Int := 0
  operations : Nat := 0
  operation_bytes : Nat := 0
  messages : Nat := 0
  message_bytes : Nat := 0
  http_requests : Nat := 0
  service_oracle_queries : Nat := 0
  service_oracle_execution : Nat := 0
  grants : Nat := 0
deriving Repr

/-- `ResourceTracker::fuel`: select the fuel pool of the given VM runtime. -/
def ResourceTracker.fuel (t : ResourceTracker) (vm_runtime : VmRuntime) : Nat :=
  match vm_runtime with
  | .Wasm => t.wasm_fuel
  | .Evm => t.evm_fuel

/-- The interface of the external `ResourceControlPolicy` collaborator, as
used by `resources.rs`: flat fees and hard maxima are data fields, the pricing
functions and the blob-size check are abstract function fields (the policy is
out of scope and treated as an input). -/
structure ResourceControlPolicy where
  operation : Nat := 0
  message : Nat := 0
  http_request : Nat := 0
  service_as_oracle_query : Nat := 0
  maximum_wasm_fuel_per_block : Nat := 0
  maximum_evm_fuel_per_block : Nat := 0
  maximum_bytes_read_per_block : Nat := 0
  maximum_bytes_written_per_block : Nat := 0
  maximum_block_size : Nat := 0
  maximum_service_oracle_execution_ms : Nat := 0
  maximum_oracle_response_bytes : Nat := 0
  operation_bytes_price : Nat → Except ArithmeticError Nat := fun _ => .ok 0
  message_bytes_price : Nat → Except ArithmeticError Nat := fun _ => .ok 0
  bytes_runtime_price : Nat → Except ArithmeticError Nat := fun _ => .ok 0
  read_operations_price : Nat → Except ArithmeticError Nat := fun _ => .ok 0
  write_operations_price : Nat → Except ArithmeticError Nat := fun _ => .ok 0
  bytes_read_price : Nat → Except ArithmeticError Nat := fun _ => .ok 0
  bytes_written_price : Nat → Except ArithmeticError Nat := fun _ => .ok 0
  blob_read_price : Nat → Except ArithmeticError Nat := fun _ => .ok 0
  blob_published_price : Nat → Except ArithmeticError Nat := fun _ => .ok 0
  fuel_price : Nat → VmRuntime → Except ArithmeticError Nat := fun _ _ => .ok 0
  check_blob_size : Nat → Except ExecutionError Unit := fun _ => .ok ()

/-- `ResourceController`: policy, tracker and paying account. -/
structure ResourceController where
  policy : ResourceControlPolicy
  tracker : ResourceTracker
  account : Account

/-- `ResourceController::balance`. -/
def ResourceController.balance (rc : ResourceController) : Except ArithmeticError Nat :=
  rc.account.balance

/-- `self.balance().unwrap_or(Amount::MAX)`, used when reporting
`FeesExceedFunding`. -/
def Account.balanceOrMax (a : Account) : Nat :=
  match a.balance with
  | .ok b => b
  | .error _ => amountMax

/-- `ResourceController::update_balance`: subtract the fees from the account,
mapping an arithmetic failure to `FeesExceedFunding` (the account keeps any
mutation the failed subtraction already made). -/
def ResourceController.update_balance (rc : ResourceController) (fees : Nat) :
    (Except ExecutionError Unit) × ResourceController :=
  let res := rc.account.try_sub_assign fees
  match res.1 with
  | .ok _ => (.ok (), { rc with account := res.2 })
  | .error _ =>
    (.error (.FeesExceedFunding fees (Account.balanceOrMax res.2)),
     { rc with account := res.2 })

/-- `ResourceController::merge_balance`: transfer the difference between
`initial` and `other` to the account.  `none` models the panic that
`Account.try_add_assign` can raise on an empty source list. -/
def ResourceController.merge_balance (rc : ResourceController) (initial other : Nat) :
    Option ((Except ExecutionError Unit) × ResourceController) :=
  if other ≤ initial then
    let sub_amount := initial - other
    let res := rc.account.try_sub_assign sub_amount
    match res.1 with
    | .ok _ => some (.ok (), { rc with account := res.2 })
    | .error _ =>
      some (.error (.FeesExceedFunding sub_amount (Account.balanceOrMax res.2)),
            { rc with account := res.2 })
  else
    match rc.account.try_add_assign (other - initial) with
    | none => none
    | some res =>
      match res.1 with
      | .ok _ => some (.ok (), { rc with account := res.2 })
      | .error e => some (.error (.ArithmeticError e), { rc with account := res.2 })

/-- `ResourceController::track_grant`. -/
def ResourceController.track_grant (rc : ResourceController) (grant : Nat) :
    (Except ExecutionError Unit) × ResourceController :=
  if rc.tracker.grants + grant ≤ amountMax then
    let rc1 := { rc with tracker := { rc.tracker with grants := rc.tracker.grants + grant } }
    rc1.update_balance grant
  else
    (.error (.ArithmeticError .Overflow), rc)

/-- `Operation`: a system operation, or a user operation with its serialized
bytes. -/
inductive Operation where
  | system
  | user (bytes : List Nat)

/-- `Message`: a system message, or a user message with its serialized
bytes. -/
inductive Message where
  | system
  | user (bytes : List Nat)

/-- `ResourceController::track_operation`. -/
def ResourceController.track_operation (rc : ResourceController) (operation : Operation) :
    (Except ExecutionError Unit) × ResourceController :=
  if rc.tracker.operations + 1 ≤ u32Max then
    let rc1 := { rc with tracker := { rc.tracker with operations := rc.tracker.operations + 1 } }
    let res := rc1.update_balance rc1.policy.operation
    match res.1 with
    | .error e => (.error e, res.2)
    | .ok _ =>
      let rc2 := res.2
      match operation with
      | .system => (.ok (), rc2)
      | .user bytes =>
        let size := bytes.length
        if rc2.tracker.operation_bytes + size ≤ u64Max then
          let rc3 := { rc2 with
            tracker := { rc2.tracker with
              operation_bytes := rc2.tracker.operation_bytes + size } }
          match rc3.policy.operation_bytes_price size with
          | .error e => (.error (.ArithmeticError e), rc3)
          | .ok fee => rc3.update_balance fee
        else
          (.error (.ArithmeticError .Overflow), rc2)
  else
    (.error (.ArithmeticError .Overflow), rc)

/-- `ResourceController::track_message`. -/
def ResourceController.track_message (rc : ResourceController) (message : Message) :
    (Except ExecutionError Unit) × ResourceController :=
  if rc.tracker.messages + 1 ≤ u32Max then
    let rc1 := { rc with tracker := { rc.tracker with messages := rc.tracker.messages + 1 } }
    let res := rc1.update_balance rc1.policy.message
    match res.1 with
    | .error e => (.error e, res.2)
    | .ok _ =>
      let rc2 := res.2
      match message with
      | .system => (.ok (), rc2)
      | .user bytes =>
        let size := bytes.length
        if rc2.tracker.message_bytes + size ≤ u64Max then
          let rc3 := { rc2 with
            tracker := { rc2.tracker with
              message_bytes := rc2.tracker.message_bytes + size } }
          match rc3.policy.message_bytes_price size with
          | .error e => (.error (.ArithmeticError e), rc3)
          | .ok fee => rc3.update_balance fee
        else
          (.error (.ArithmeticError .Overflow), rc2)
  else
    (.error (.ArithmeticError .Overflow), rc)

/-- `ResourceController::track_http_request`. -/
def ResourceController.track_http_request (rc : ResourceController) :
    (Except ExecutionError Unit) × ResourceController :=
  if rc.tracker.http_requests + 1 ≤ u32Max then
    let rc1 := { rc with
      tracker := { rc.tracker with http_requests := rc.tracker.http_requests + 1 } }
    rc1.update_balance rc1.policy.http_request
  else
    (.error (.ArithmeticError .Overflow), rc)

/-- `ResourceController::track_fuel`. -/
def ResourceController.track_fuel (rc : ResourceController) (fuel : Nat) (vm_runtime : VmRuntime) :
    (Except ExecutionError Unit) × ResourceController :=
  match vm_runtime with
  | .Wasm =>
    if rc.tracker.wasm_fuel + fuel ≤ u64Max then
      let rc1 := { rc with
        tracker := { rc.tracker with wasm_fuel := rc.tracker.wasm_fuel + fuel } }
      if rc1.tracker.wasm_fuel ≤ rc1.policy.maximum_wasm_fuel_per_block then
        match rc1.policy.fuel_price fuel .Wasm with
        | .error e => (.error (.ArithmeticError e), rc1)
        | .ok fee => rc1.update_balance fee
      else
        (.error (.MaximumFuelExceeded .Wasm), rc1)
    else
      (.error (.ArithmeticError .Overflow), rc)
  | .Evm =>
    if rc.tracker.evm_fuel + fuel ≤ u64Max then
      let rc1 := { rc with
        tracker := { rc.tracker with evm_fuel := rc.tracker.evm_fuel + fuel } }
      if rc1.tracker.evm_fuel ≤ rc1.policy.maximum_evm_fuel_per_block then
        match rc1.policy.fuel_price fuel .Evm with
        | .error e => (.error (.ArithmeticError e), rc1)
        | .ok fee => rc1.update_balance fee
      else
        (.error (.MaximumFuelExceeded .Evm), rc1)
    else
      (.error (.ArithmeticError .Overflow), rc)

/-- `ResourceController::track_size_runtime_operations` (the common body of
the `track_runtime_*` family). -/
def ResourceController.track_size_runtime_operations (rc : ResourceController) (size : Nat) :
    (Except ExecutionError Unit) × ResourceController :=
  if rc.tracker.bytes_runtime + size ≤ u32Max then
    let rc1 := { rc with
      tracker := { rc.tracker with bytes_runtime := rc.tracker.bytes_runtime + size } }
    match rc1.policy.bytes_runtime_price size with
    | .error e => (.error (.ArithmeticError e), rc1)
    | .ok fee => rc1.update_balance fee
  else
    (.error (.ArithmeticError .Overflow), rc)

/-- `ResourceController::track_read_operation`. -/
def ResourceController.track_read_operation (rc : ResourceController) :
    (Except ExecutionError Unit) × ResourceController :=
  if rc.tracker.read_operations + 1 ≤ u32Max then
    let rc1 := { rc with
      tracker := { rc.tracker with read_operations := rc.tracker.read_operations + 1 } }
    match rc1.policy.read_operations_price 1 with
    | .error e => (.error (.ArithmeticError e), rc1)
    | .ok fee => rc1.update_balance fee
  else
    (.error (.ArithmeticError .Overflow), rc)

/-- `ResourceController::track_write_operations`. -/
def ResourceController.track_write_operations (rc : ResourceController) (count : Nat) :
    (Except ExecutionError Unit) × ResourceController :=
  if rc.tracker.write_operations + count ≤ u32Max then
    let rc1 := { rc with
      tracker := { rc.tracker with
        write_operations := rc.tracker.write_operations + count } }
    match rc1.policy.write_operations_price count with
    | .error e => (.error (.ArithmeticError e), rc1)
    | .ok fee => rc1.update_balance fee
  else
    (.error (.ArithmeticError .Overflow), rc)

/-- `ResourceController::track_bytes_read`. -/
def ResourceController.track_bytes_read (rc : ResourceController) (count : Nat) :
    (Except ExecutionError Unit) × ResourceController :=
  if rc.tracker.bytes_read + count ≤ u64Max then
    let rc1 := { rc with
      tracker := { rc.tracker with bytes_read := rc.tracker.bytes_read + count } }
    if rc1.policy.maximum_bytes_read_per_block ≤ rc1.tracker.bytes_read then
      (.error .ExcessiveRead, rc1)
    else
      match rc1.policy.bytes_read_price count with
      | .error e => (.error (.ArithmeticError e), rc1)
      | .ok fee => rc1.update_balance fee
  else
    (.error (.ArithmeticError .Overflow), rc)

/-- `ResourceController::track_bytes_written`. -/
def ResourceController.track_bytes_written (rc : ResourceController) (count : Nat) :
    (Except ExecutionError Unit) × ResourceController :=
  if rc.tracker.bytes_written + count ≤ u64Max then
    let rc1 := { rc with
      tracker := { rc.tracker with bytes_written := rc.tracker.bytes_written + count } }
    if rc1.policy.maximum_bytes_written_per_block ≤ rc1.tracker.bytes_written then
      (.error .ExcessiveWrite, rc1)
    else
      match rc1.policy.bytes_written_price count with
      | .error e => (.error (.ArithmeticError e), rc1)
      | .ok fee => rc1.update_balance fee
  else
    (.error (.ArithmeticError .Overflow), rc)

/-- `ResourceController::track_blob_read`. -/
def ResourceController.track_blob_read (rc : ResourceController) (count : Nat) :
    (Except ExecutionError Unit) × ResourceController :=
  if rc.tracker.blob_bytes_read + count ≤ u64Max then
    let rc1 := { rc with
      tracker := { rc.tracker with blob_bytes_read := rc.tracker.blob_bytes_read + count } }
    if rc1.tracker.blobs_read + 1 ≤ u32Max then
      let rc2 := { rc1 with
        tracker := { rc1.tracker with blobs_read := rc1.tracker.blobs_read + 1 } }
      match rc2.policy.blob_read_price count with
      | .error e => (.error (.ArithmeticError e), rc2)
      | .ok fee => rc2.update_balance fee
    else
      (.error (.ArithmeticError .Overflow), rc1)
  else
    (.error (.ArithmeticError .Overflow), rc)

/-- `Blob`: its content bytes and whether it is a committee blob. -/
structure Blob where
  content : List Nat
  is_committee_blob : Bool

/-- `ResourceController::track_blob_published`. -/
def ResourceController.track_blob_published (rc : ResourceController) (blob : Blob) :
    (Except ExecutionError Unit) × ResourceController :=
  match rc.policy.check_blob_size blob.content.length with
  | .error e => (.error e, rc)
  | .ok _ =>
    let size := blob.content.length
    if blob.is_committee_blob then
      (.ok (), rc)
    else
      if rc.tracker.blob_bytes_published + size ≤ u64Max then
        let rc1 := { rc with
          tracker := { rc.tracker with
            blob_bytes_published := rc.tracker.blob_bytes_published + size } }
        if rc1.tracker.blobs_published + 1 ≤ u32Max then
          let rc2 := { rc1 with
            tracker := { rc1.tracker with
              blobs_published := rc1.tracker.blobs_published + 1 } }
          match rc2.policy.blob_published_price size with
          | .error e => (.error (.ArithmeticError e), rc2)
          | .ok fee => rc2.update_balance fee
        else
          (.error (.ArithmeticError .Overflow), rc1)
      else
        (.error (.ArithmeticError .Overflow), rc)

/-- `ResourceController::track_stored_bytes`: signed `i32` checked addition. -/
def ResourceController.track_stored_bytes (rc : ResourceController) (delta : Int) :
    (Except ExecutionError Unit) × ResourceController :=
  if i32Min ≤ rc.tracker.bytes_stored + delta ∧ rc.tracker.bytes_stored + delta ≤ i32Max then
    (.ok (), { rc with
      tracker := { rc.tracker with bytes_stored := rc.tracker.bytes_stored + delta } })
  else
    (.error (.ArithmeticError .Overflow), rc)

/-- `ResourceController::remaining_service_oracle_execution_time`. -/
def ResourceController.remaining_service_oracle_execution_time (rc : ResourceController) :
    Except ExecutionError Nat :=
  let spent := rc.tracker.service_oracle_execution
  let limit := durationFromMillis rc.policy.maximum_service_oracle_execution_ms
  if spent ≤ limit then .ok (limit - spent)
  else .error .MaximumServiceOracleExecutionTimeExceeded

/-- `ResourceController::track_service_oracle_call`. -/
def ResourceController.track_service_oracle_call (rc : ResourceController) :
    (Except ExecutionError Unit) × ResourceController :=
  if rc.tracker.service_oracle_queries + 1 ≤ u32Max then
    let rc1 := { rc with
      tracker := { rc.tracker with
        service_oracle_queries := rc.tracker.service_oracle_queries + 1 } }
    rc1.update_balance rc1.policy.service_as_oracle_query
  else
    (.error (.ArithmeticError .Overflow), rc)

/-- `ResourceController::track_service_oracle_execution`: saturating `Duration`
addition, then the (strict) limit check. -/
def ResourceController.track_service_oracle_execution (rc : ResourceController)
    (execution_time : Nat) : (Except ExecutionError Unit) × ResourceController :=
  let spent := min (rc.tracker.service_oracle_execution + execution_time) durationMax
  let limit := durationFromMillis rc.policy.maximum_service_oracle_execution_ms
  let rc1 := { rc with
    tracker := { rc.tracker with service_oracle_execution := spent } }
  if spent < limit then
    (.ok (), rc1)
  else
    (.error .MaximumServiceOracleExecutionTimeExceeded, rc1)

/-- `ResourceController::track_service_oracle_response`. -/
def ResourceController.track_service_oracle_response (rc : ResourceController)
    (response_bytes : Nat) : (Except ExecutionError Unit) × ResourceController :=
  if response_bytes ≤ rc.policy.maximum_oracle_response_bytes then
    (.ok (), rc)
  else
    (.error .ServiceOracleResponseTooLarge, rc)

/-- `ResourceController::track_block_size`: the `usize → u64` conversion and
the checked addition both map to `BlockTooLarge`, then the maximum block size
is enforced. -/
def ResourceController.track_block_size (rc : ResourceController) (size : Nat) :
    (Except ExecutionError Unit) × ResourceController :=
  if size ≤ u64Max then
    if rc.tracker.block_size + size ≤ u64Max then
      let rc1 := { rc with
        tracker := { rc.tracker with block_size := rc.tracker.block_size + size } }
      if rc1.tracker.block_size ≤ rc1.policy.maximum_block_size then
        (.ok (), rc1)
      else
        (.error .BlockTooLarge, rc1)
    else
      (.error .BlockTooLarge, rc)
  else
    (.error .BlockTooLarge, rc)

/-- `AccountOwner`: an opaque owner identity. -/
def AccountOwner : Type := Nat

/-- The slice of `SystemExecutionStateView` used by `with_state_and_grant`:
the chain balance and the per-owner balance map. -/
structure SystemExecutionStateView where
  balance : Nat
  balances : Nat → Option Nat

/-- `ResourceController::with_state_and_grant` on a controller whose account
is `Option<AccountOwner>`: build the prioritized source list (grant if
present, else the chain balance; then the owner's balance entry if any) and
return the transient controller. -/
def with_state_and_grant (policy : ResourceControlPolicy) (tracker : ResourceTracker)
    (owner_account : Option Nat) (view : SystemExecutionStateView)
    (grant : Option Nat) : ResourceController :=
  let sources : List Nat := []
  let sources :=
    match grant with
    | some g => sources ++ [g]
    | none => sources ++ [view.balance]
  let sources :=
    match owner_account with
    | some owner =>
      match view.balances owner with
      | some b => sources ++ [b]
      | none => sources
    | none => sources
  { policy := policy, tracker := tracker, account := .sources sources }

/-- `ResourceController::with_state`: `with_state_and_grant` without a
grant. -/
def with_state (policy : ResourceControlPolicy) (tracker : ResourceTracker)
    (owner_account : Option Nat) (view : SystemExecutionStateView) : ResourceController :=
  with_state_and_grant policy tracker owner_account view none

/-! Concrete fixtures used to evaluate the theorems on explicit inputs. -/

/-- The policy with all fees, caps and prices at their defaults. -/
def pol0 : ResourceControlPolicy := {}

/-- The policy whose flat operation fee is `1`. -/
def polOpFee1 : ResourceControlPolicy := { operation := 1 }

/-- A policy with small per-block byte caps. -/
def polCaps : ResourceControlPolicy :=
  { maximum_bytes_read_per_block := 5, maximum_bytes_written_per_block := 5 }

/-- The all-zero tracker (`ResourceTracker::default()`). -/
def t0 : ResourceTracker := {}

/-- A tracker whose `block_size` already sits at `u64::MAX`. -/
def tBlockFull : ResourceTracker := { block_size := u64Max }

/-- A small committee blob. -/
def blobCommittee : Blob := { content := [0, 0, 0], is_committee_blob := true }

/-- Observer: the source list of an account (`[]` for a plain amount). -/
def Account.sourceList : Account → List Nat
  | .amount _ => []
  | .sources l => l

end Resources

namespace Resources

/-! ## Preliminary lemmas -/

/-- Closed form of the `Sources::balance` fold: starting from an in-range
accumulator, it yields the total sum when it fits in an `Amount`, and an
`Overflow` otherwise. -/
theorem sourcesBalanceFrom_spec (l : List Nat) (acc : Nat) (hacc : acc ≤ amountMax) :
    sourcesBalanceFrom acc l =
      if acc + l.sum ≤ amountMax then .ok (acc + l.sum) else .error .Overflow := by
  induction l generalizing acc with
  | nil => simp [sourcesBalanceFrom, hacc]
  | cons s rest ih =>
    simp only [sourcesBalanceFrom, Amount.tryAdd, List.sum_cons]
    by_cases hs : acc + s ≤ amountMax
    · rw [if_pos hs]
      have heq : (match (Except.ok (acc + s) : Except ArithmeticError Nat) with
          | .ok amount2 => sourcesBalanceFrom amount2 rest
          | .error e => .error e) = sourcesBalanceFrom (acc + s) rest := rfl
      rw [heq, ih (acc + s) hs, Nat.add_assoc]
    · rw [if_neg hs, if_neg (by omega)]

/-- Subtracting zero succeeds and leaves any account unchanged. -/
theorem Account.try_sub_assign_zero (a : Account) : a.try_sub_assign 0 = (.ok (), a) := by
  cases a with
  | amount x => simp [Account.try_sub_assign, Amount.trySub]
  | sources l =>
    cases l with
    | nil => simp [Account.try_sub_assign, Sources.try_sub_assign, sourcesSubLoop]
    | cons s rest =>
      simp [Account.try_sub_assign, Sources.try_sub_assign, sourcesSubLoop, Amount.trySub]

/-! ## Claim theorems -/

/-- C2: with a flat operation fee of `1` and an account balance of `0`,
`track_operation` on a system operation fails with `FeesExceedFunding`
(fees `1`, balance `0`) while the `operations` counter has nonetheless been
incremented from `0` to `1`. -/
theorem track_operation_counter_not_rolled_back :
    (ResourceController.track_operation ⟨polOpFee1, t0, .amount 0⟩ .system).1
      = .error (.FeesExceedFunding 1 0) ∧
    (ResourceController.track_operation ⟨polOpFee1, t0, .amount 0⟩ .system).2.tracker.operations
      = 1 ∧
    t0.operations = 0 := by
  refine ⟨rfl, rfl, rfl⟩

/-- C3: `Sources::try_sub_assign` drains sources front to back with no refund
on failure: `[10, 5] - 12 = [0, 3]` with success, and `[10, 5] - 16` fails
with `Underflow` leaving `[0, 0]`. -/
theorem sources_try_sub_assign_front_to_back :
    Sources.try_sub_assign [10, 5] 12 = (.ok (), [0, 3]) ∧
    Sources.try_sub_assign [10, 5] 16 = (.error .Underflow, [0, 0]) := by
  refine ⟨rfl, rfl⟩

/-- C9: `Sources::balance` returns the sum of all source amounts, and its only
possible failure is an overflow of that sum past `Amount::MAX` (non-mutation
is reflected in the embedding type, which mirrors the `&self` receiver). -/
theorem sources_balance_is_sum (l : List Nat) :
    Sources.balance l =
      if l.sum ≤ amountMax then .ok l.sum else .error .Overflow := by
  have h := sourcesBalanceFrom_spec l 0 (by simp [amountMax])
  simpa [Sources.balance] using h

/-- C5: `merge_balance(initial, other)` applies the signed difference
`other - initial` to the account: equal amounts leave any account unchanged;
on a plain amount account, `other < initial` debits `initial - other` (failing
with `FeesExceedFunding` carrying that fee if not covered), and
`other > initial` credits `other - initial`. -/
theorem merge_balance_signed_difference :
    (∀ (rc : ResourceController) (i : Nat),
        rc.merge_balance i i = some (.ok (), rc)) ∧
    (∀ (p : ResourceControlPolicy) (t : ResourceTracker) (x i o : Nat),
        o < i → i - o ≤ x →
        ResourceController.merge_balance ⟨p, t, .amount x⟩ i o
          = some (.ok (), ⟨p, t, .amount (x - (i - o))⟩)) ∧
    (∀ (p : ResourceControlPolicy) (t : ResourceTracker) (x i o : Nat),
        o < i → x < i - o →
        ResourceController.merge_balance ⟨p, t, .amount x⟩ i o
          = some (.error (.FeesExceedFunding (i - o) x), ⟨p, t, .amount x⟩)) ∧
    (∀ (p : ResourceControlPolicy) (t : ResourceTracker) (x i o : Nat),
        i < o → x + (o - i) ≤ amountMax →
        ResourceController.merge_balance ⟨p, t, .amount x⟩ i o
          = some (.ok (), ⟨p, t, .amount (x + (o - i))⟩)) := by
  refine ⟨?_, ?_, ?_, ?_⟩
  · intro rc i
    simp [ResourceController.merge_balance, Account.try_sub_assign_zero]
  · intro p t x i o h1 h2
    have ho : o ≤ i := Nat.le_of_lt h1
    simp [ResourceController.merge_balance, Account.try_sub_assign, Amount.trySub, ho, h2]
  · intro p t x i o h1 h2
    have ho : o ≤ i := Nat.le_of_lt h1
    have hx : ¬ (i - o ≤ x) := by omega
    simp [ResourceController.merge_balance, Account.try_sub_assign, Amount.trySub, ho, hx,
      Account.balanceOrMax, Account.balance]
  · intro p t x i o h1 h2
    have ho : ¬ (o ≤ i) := by omega
    simp [ResourceController.merge_balance, Account.try_add_assign, Amount.tryAdd, ho, h2]

/-- C5 witness: the three branches evaluated on plain amount accounts. -/
theorem merge_balance_signed_difference_witness :
    ResourceController.merge_balance ⟨pol0, t0, .amount 10⟩ 4 4
      = some (.ok (), ⟨pol0, t0, .amount 10⟩) ∧
    ResourceController.merge_balance ⟨pol0, t0, .amount 10⟩ 7 3
      = some (.ok (), ⟨pol0, t0, .amount 6⟩) ∧
    ResourceController.merge_balance ⟨pol0, t0, .amount 2⟩ 7 3
      = some (.error (.FeesExceedFunding 4 2), ⟨pol0, t0, .amount 2⟩) ∧
    ResourceController.merge_balance ⟨pol0, t0, .amount 10⟩ 3 7
      = some (.ok (), ⟨pol0, t0, .amount 14⟩) :=
  ⟨merge_balance_signed_difference.1 ⟨pol0, t0, .amount 10⟩ 4,
   merge_balance_signed_difference.2.1 pol0 t0 10 7 3 (by omega) (by omega),
   merge_balance_signed_difference.2.2.1 pol0 t0 2 7 3 (by omega) (by omega),
   merge_balance_signed_difference.2.2.2 pol0 t0 10 3 7 (by omega) (by decide)⟩

/-- C6: `track_blob_published` on a committee blob that passes the policy's
blob-size check returns success and leaves the tracker and the account
untouched, regardless of blob size. -/
theorem track_blob_published_committee_no_effect
    (rc : ResourceController) (blob : Blob)
    (hcommittee : blob.is_committee_blob = true)
    (hsize : rc.policy.check_blob_size blob.content.length = .ok ()) :
    rc.track_blob_published blob = (.ok (), rc) := by
  simp [ResourceController.track_blob_published, hsize, hcommittee]

/-- C6 witness: a concrete committee blob under the default policy. -/
theorem track_blob_published_committee_no_effect_witness :
    ResourceController.track_blob_published ⟨pol0, t0, .amount 0⟩ blobCommittee
      = (.ok (), ⟨pol0, t0, .amount 0⟩) :=
  track_blob_published_committee_no_effect ⟨pol0, t0, .amount 0⟩ blobCommittee rfl rfl

/-- C8: `with_state_and_grant` builds the source list as: the grant when
present, else the chain balance; followed by the owner's balance entry exactly
when the controller's account holds an owner with an entry in the balance map;
the list always has length one or two. -/
theorem with_state_and_grant_priority_order
    (p : ResourceControlPolicy) (t : ResourceTracker) (owner_account : Option Nat)
    (view : SystemExecutionStateView) (grant : Option Nat) :
    (with_state_and_grant p t owner_account view grant).account =
      .sources ((match grant with | some g => [g] | none => [view.balance]) ++
        (match owner_account with
         | some owner =>
           (match view.balances owner with | some b => [b] | none => [])
         | none => [])) ∧
    ((with_state_and_grant p t owner_account view grant).account.sourceList.length = 1 ∨
     (with_state_and_grant p t owner_account view grant).account.sourceList.length = 2) := by
  cases grant with
  | none =>
    cases owner_account with
    | none => exact ⟨rfl, Or.inl rfl⟩
    | some owner =>
      cases hb : view.balances owner with
      | none =>
        refine ⟨?_, ?_⟩ <;> simp [with_state_and_grant, hb, Account.sourceList]
      | some b =>
        refine ⟨?_, ?_⟩ <;> simp [with_state_and_grant, hb, Account.sourceList]
  | some g =>
    cases owner_account with
    | none => exact ⟨rfl, Or.inl rfl⟩
    | some owner =>
      cases hb : view.balances owner with
      | none =>
        refine ⟨?_, ?_⟩ <;> simp [with_state_and_grant, hb, Account.sourceList]
      | some b =>
        refine ⟨?_, ?_⟩ <;> simp [with_state_and_grant, hb, Account.sourceList]

/-- Helper for C10: `Sources::try_add_assign` cannot panic on a non-empty
source list. -/
theorem sources_try_add_assign_ne_none (l : List Nat) (hl : l ≠ []) (a : Nat) :
    Sources.try_add_assign l a ≠ none := by
  unfold Sources.try_add_assign
  rw [List.getLast?_eq_getLast_of_ne_nil hl]
  cases h : Amount.tryAdd (l.getLast hl) a <;> simp [h]

/-- C10: `Sources::try_add_assign` panics exactly on an empty source list,
and every account built by `with_state_and_grant` (hence also by `with_state`)
has at least one source, so credits through such a controller never reach the
panic. -/
theorem with_state_sources_nonempty_no_panic :
    (∀ a : Nat, Sources.try_add_assign [] a = none) ∧
    (∀ (p : ResourceControlPolicy) (t : ResourceTracker) (owner_account : Option Nat)
        (view : SystemExecutionStateView) (grant : Option Nat) (a : Nat),
      (with_state_and_grant p t owner_account view grant).account.sourceList ≠ [] ∧
      Sources.try_add_assign
        ((with_state_and_grant p t owner_account view grant).account.sourceList) a ≠ none ∧
      Account.try_add_assign (with_state_and_grant p t owner_account view grant).account a
        ≠ none ∧
      Account.try_add_assign (with_state p t owner_account view).account a ≠ none) := by
  constructor
  · intro a; rfl
  · intro p t owner_account view grant a
    have hshape : ∀ (g0 : Option Nat),
        (with_state_and_grant p t owner_account view g0).account.sourceList ≠ [] := by
      intro g0
      cases g0 with
      | none =>
        cases owner_account with
        | none => simp [with_state_and_grant, Account.sourceList]
        | some owner =>
          cases hb : view.balances owner <;>
            simp [with_state_and_grant, Account.sourceList, hb]
      | some g =>
        cases owner_account with
        | none => simp [with_state_and_grant, Account.sourceList]
        | some owner =>
          cases hb : view.balances owner <;>
            simp [with_state_and_grant, Account.sourceList, hb]
    have hsrc : ∀ (g0 : Option Nat), ∃ l, (with_state_and_grant p t owner_account view g0).account
        = .sources l := by
      intro g0; exact ⟨_, rfl⟩
    refine ⟨hshape grant, sources_try_add_assign_ne_none _ (hshape grant) a, ?_, ?_⟩
    · obtain ⟨l, hl⟩ := hsrc grant
      have hne : l ≠ [] := by
        have := hshape grant
        rw [hl] at this
        simpa [Account.sourceList] using this
      rw [hl]
      simp only [Account.try_add_assign]
      cases hadd : Sources.try_add_assign l a with
      | none => exact absurd hadd (sources_try_add_assign_ne_none l hne a)
      | some res => simp
    · obtain ⟨l, hl⟩ := hsrc none
      have hne : l ≠ [] := by
        have := hshape none
        rw [hl] at this
        simpa [Account.sourceList] using this
      rw [with_state, hl]
      simp only [Account.try_add_assign]
      cases hadd : Sources.try_add_assign l a with
      | none => exact absurd hadd (sources_try_add_assign_ne_none l hne a)
      | some res => simp

/-- C4: within funding (the per-byte price computes and the account covers the
fee) and within the `u64` width, `track_bytes_read` fails with `ExcessiveRead`
exactly when the post-increment total reaches or exceeds the policy cap (so a
total equal to the cap already fails), and succeeds below the cap; and
symmetrically for `track_bytes_written` with `ExcessiveWrite`. -/
theorem track_bytes_read_written_cap_boundary :
    (∀ (p : ResourceControlPolicy) (t : ResourceTracker) (a : Account) (count fee : Nat),
        t.bytes_read + count ≤ u64Max →
        p.bytes_read_price count = .ok fee →
        (a.try_sub_assign fee).1 = .ok () →
        (((ResourceController.track_bytes_read ⟨p, t, a⟩ count).1 = .error .ExcessiveRead ↔
            p.maximum_bytes_read_per_block ≤ t.bytes_read + count) ∧
         (t.bytes_read + count < p.maximum_bytes_read_per_block →
            (ResourceController.track_bytes_read ⟨p, t, a⟩ count).1 = .ok ()))) ∧
    (∀ (p : ResourceControlPolicy) (t : ResourceTracker) (a : Account) (count fee : Nat),
        t.bytes_written + count ≤ u64Max →
        p.bytes_written_price count = .ok fee →
        (a.try_sub_assign fee).1 = .ok () →
        (((ResourceController.track_bytes_written ⟨p, t, a⟩ count).1 = .error .ExcessiveWrite ↔
            p.maximum_bytes_written_per_block ≤ t.bytes_written + count) ∧
         (t.bytes_written + count < p.maximum_bytes_written_per_block →
            (ResourceController.track_bytes_written ⟨p, t, a⟩ count).1 = .ok ()))) := by
  constructor
  · intro p t a count fee h1 hprice hsub
    simp only [ResourceController.track_bytes_read, ResourceController.update_balance]
    rw [if_pos h1]
    by_cases hcap : p.maximum_bytes_read_per_block ≤ t.bytes_read + count
    · rw [if_pos hcap]
      exact ⟨by simp [hcap], fun hlt => absurd hlt (by omega)⟩
    · rw [if_neg hcap]
      rcases hres : a.try_sub_assign fee with ⟨r, a2⟩
      rw [hres] at hsub
      simp only at hsub
      subst hsub
      simp [hprice, hres, hcap]
  · intro p t a count fee h1 hprice hsub
    simp only [ResourceController.track_bytes_written, ResourceController.update_balance]
    rw [if_pos h1]
    by_cases hcap : p.maximum_bytes_written_per_block ≤ t.bytes_written + count
    · rw [if_pos hcap]
      exact ⟨by simp [hcap], fun hlt => absurd hlt (by omega)⟩
    · rw [if_neg hcap]
      rcases hres : a.try_sub_assign fee with ⟨r, a2⟩
      rw [hres] at hsub
      simp only at hsub
      subst hsub
      simp [hprice, hres, hcap]

/-- C4 witness: with a cap of `5` and a zero-price policy, a read of `5` bytes
(total exactly at the cap) fails with `ExcessiveRead`, a read of `3` succeeds,
and symmetrically for writes. -/
theorem track_bytes_read_written_cap_boundary_witness :
    (ResourceController.track_bytes_read ⟨polCaps, t0, .amount 0⟩ 5).1 = .error .ExcessiveRead ∧
    (ResourceController.track_bytes_read ⟨polCaps, t0, .amount 0⟩ 3).1 = .ok () ∧
    (ResourceController.track_bytes_written ⟨polCaps, t0, .amount 0⟩ 5).1
      = .error .ExcessiveWrite ∧
    (ResourceController.track_bytes_written ⟨polCaps, t0, .amount 0⟩ 3).1 = .ok () :=
  ⟨((track_bytes_read_written_cap_boundary.1 polCaps t0 (.amount 0) 5 0 (by decide) rfl
      rfl).1).mpr (by decide),
   (track_bytes_read_written_cap_boundary.1 polCaps t0 (.amount 0) 3 0 (by decide) rfl
      rfl).2 (by decide),
   ((track_bytes_read_written_cap_boundary.2 polCaps t0 (.amount 0) 5 0 (by decide) rfl
      rfl).1).mpr (by decide),
   (track_bytes_read_written_cap_boundary.2 polCaps t0 (.amount 0) 3 0 (by decide) rfl
      rfl).2 (by decide)⟩

/-- C7: the two fuel pools are fully independent: `track_fuel` on the Wasm
runtime yields the same result and the same post-state (up to the untouched
`evm_fuel` field and the modified policy field) for every value of `evm_fuel`
and of the EVM cap, and symmetrically for the EVM runtime with respect to
`wasm_fuel` and the Wasm cap. -/
theorem track_fuel_vm_independence :
    (∀ (p : ResourceControlPolicy) (t : ResourceTracker) (a : Account) (fuel x y : Nat),
      (ResourceController.track_fuel
          ⟨{ p with maximum_evm_fuel_per_block := y }, { t with evm_fuel := x }, a⟩
          fuel .Wasm).1
        = (ResourceController.track_fuel ⟨p, t, a⟩ fuel .Wasm).1 ∧
      (ResourceController.track_fuel
          ⟨{ p with maximum_evm_fuel_per_block := y }, { t with evm_fuel := x }, a⟩
          fuel .Wasm).2
        = { policy := { p with maximum_evm_fuel_per_block := y },
            tracker := { (ResourceController.track_fuel ⟨p, t, a⟩ fuel .Wasm).2.tracker with
              evm_fuel := x },
            account := (ResourceController.track_fuel ⟨p, t, a⟩ fuel .Wasm).2.account }) ∧
    (∀ (p : ResourceControlPolicy) (t : ResourceTracker) (a : Account) (fuel x y : Nat),
      (ResourceController.track_fuel
          ⟨{ p with maximum_wasm_fuel_per_block := y }, { t with wasm_fuel := x }, a⟩
          fuel .Evm).1
        = (ResourceController.track_fuel ⟨p, t, a⟩ fuel .Evm).1 ∧
      (ResourceController.track_fuel
          ⟨{ p with maximum_wasm_fuel_per_block := y }, { t with wasm_fuel := x }, a⟩
          fuel .Evm).2
        = { policy := { p with maximum_wasm_fuel_per_block := y },
            tracker := { (ResourceController.track_fuel ⟨p, t, a⟩ fuel .Evm).2.tracker with
              wasm_fuel := x },
            account := (ResourceController.track_fuel ⟨p, t, a⟩ fuel .Evm).2.account }) := by
  constructor
  · intro p t a fuel x y
    by_cases h1 : t.wasm_fuel + fuel ≤ u64Max
    · by_cases h2 : t.wasm_fuel + fuel ≤ p.maximum_wasm_fuel_per_block
      · cases hp : p.fuel_price fuel .Wasm with
        | ok fee =>
          cases hr : (a.try_sub_assign fee).1 <;>
            simp [ResourceController.track_fuel, ResourceController.update_balance,
              h1, h2, hp, hr]
        | error e =>
          simp [ResourceController.track_fuel, h1, h2, hp]
      · simp [ResourceController.track_fuel, h1, h2]
    · simp [ResourceController.track_fuel, h1]
  · intro p t a fuel x y
    by_cases h1 : t.evm_fuel + fuel ≤ u64Max
    · by_cases h2 : t.evm_fuel + fuel ≤ p.maximum_evm_fuel_per_block
      · cases hp : p.fuel_price fuel .Evm with
        | ok fee =>
          cases hr : (a.try_sub_assign fee).1 <;>
            simp [ResourceController.track_fuel, ResourceController.update_balance,
              h1, h2, hp, hr]
        | error e =>
          simp [ResourceController.track_fuel, h1, h2, hp]
      · simp [ResourceController.track_fuel, h1, h2]
    · simp [ResourceController.track_fuel, h1]

/-- C1 counterexample: with `block_size` already at `u64::MAX`, tracking one
more byte is an increment whose mathematical result exceeds the counter's
integer width, and it fails — but with `BlockTooLarge`, not with an
overflow-class (`ArithmeticError`) error, refuting the claimed error class. -/
theorem counter_overflow_error_class_counterexample :
    u64Max < tBlockFull.block_size + 1 ∧
    (ResourceController.track_block_size ⟨pol0, tBlockFull, .amount 0⟩ 1).1
      = .error .BlockTooLarge ∧
    (∀ e, (ResourceController.track_block_size ⟨pol0, tBlockFull, .amount 0⟩ 1).1
      ≠ .error (.ArithmeticError e)) := by
  refine ⟨by simp [tBlockFull], rfl, ?_⟩
  intro e h
  rw [show (ResourceController.track_block_size ⟨pol0, tBlockFull, .amount 0⟩ 1).1
      = .error .BlockTooLarge from rfl] at h
  exact absurd h (by simp)

/-- C1 (amended): every single counter increment whose mathematical result
would exceed the counter's integer width (or, for `service_oracle_execution`,
the `Duration` maximum) fails — with an overflow-class error for all checked
counters, with `BlockTooLarge` for `block_size`, and with the
oracle-execution-time error for `service_oracle_execution` — so no wraparound
is ever observable.  One conjunct per counter-incrementing `track_*` call
(the `track_runtime_*` wrappers all funnel through
`track_size_runtime_operations`); for counters incremented after an earlier
debit or increment, the earlier steps are assumed to pass. -/
theorem counter_overflow_always_checked :
    (∀ (p : ResourceControlPolicy) (t : ResourceTracker) (a : Account) (g : Nat),
      amountMax < t.grants + g →
      (ResourceController.track_grant ⟨p, t, a⟩ g).1 = .error (.ArithmeticError .Overflow)) ∧
    (∀ (p : ResourceControlPolicy) (t : ResourceTracker) (a : Account) (op : Operation),
      u32Max < t.operations + 1 →
      (ResourceController.track_operation ⟨p, t, a⟩ op).1
        = .error (.ArithmeticError .Overflow)) ∧
    (∀ (p : ResourceControlPolicy) (t : ResourceTracker) (a : Account) (bytes : List Nat),
      t.operations + 1 ≤ u32Max →
      (a.try_sub_assign p.operation).1 = .ok () →
      u64Max < t.operation_bytes + bytes.length →
      (ResourceController.track_operation ⟨p, t, a⟩ (.user bytes)).1
        = .error (.ArithmeticError .Overflow)) ∧
    (∀ (p : ResourceControlPolicy) (t : ResourceTracker) (a : Account) (msg : Message),
      u32Max < t.messages + 1 →
      (ResourceController.track_message ⟨p, t, a⟩ msg).1
        = .error (.ArithmeticError .Overflow)) ∧
    (∀ (p : ResourceControlPolicy) (t : ResourceTracker) (a : Account) (bytes : List Nat),
      t.messages + 1 ≤ u32Max →
      (a.try_sub_assign p.message).1 = .ok () →
      u64Max < t.message_bytes + bytes.length →
      (ResourceController.track_message ⟨p, t, a⟩ (.user bytes)).1
        = .error (.ArithmeticError .Overflow)) ∧
    (∀ (p : ResourceControlPolicy) (t : ResourceTracker) (a : Account),
      u32Max < t.http_requests + 1 →
      (ResourceController.track_http_request ⟨p, t, a⟩).1
        = .error (.ArithmeticError .Overflow)) ∧
    (∀ (p : ResourceControlPolicy) (t : ResourceTracker) (a : Account) (f : Nat),
      u64Max < t.wasm_fuel + f →
      (ResourceController.track_fuel ⟨p, t, a⟩ f .Wasm).1
        = .error (.ArithmeticError .Overflow)) ∧
    (∀ (p : ResourceControlPolicy) (t : ResourceTracker) (a : Account) (f : Nat),
      u64Max < t.evm_fuel + f →
      (ResourceController.track_fuel ⟨p, t, a⟩ f .Evm).1
        = .error (.ArithmeticError .Overflow)) ∧
    (∀ (p : ResourceControlPolicy) (t : ResourceTracker) (a : Account) (size : Nat),
      u32Max < t.bytes_runtime + size →
      (ResourceController.track_size_runtime_operations ⟨p, t, a⟩ size).1
        = .error (.ArithmeticError .Overflow)) ∧
    (∀ (p : ResourceControlPolicy) (t : ResourceTracker) (a : Account),
      u32Max < t.read_operations + 1 →
      (ResourceController.track_read_operation ⟨p, t, a⟩).1
        = .error (.ArithmeticError .Overflow)) ∧
    (∀ (p : ResourceControlPolicy) (t : ResourceTracker) (a : Account) (n : Nat),
      u32Max < t.write_operations + n →
      (ResourceController.track_write_operations ⟨p, t, a⟩ n).1
        = .error (.ArithmeticError .Overflow)) ∧
    (∀ (p : ResourceControlPolicy) (t : ResourceTracker) (a : Account) (n : Nat),
      u64Max < t.bytes_read + n →
      (ResourceController.track_bytes_read ⟨p, t, a⟩ n).1
        = .error (.ArithmeticError .Overflow)) ∧
    (∀ (p : ResourceControlPolicy) (t : ResourceTracker) (a : Account) (n : Nat),
      u64Max < t.bytes_written + n →
      (ResourceController.track_bytes_written ⟨p, t, a⟩ n).1
        = .error (.ArithmeticError .Overflow)) ∧
    (∀ (p : ResourceControlPolicy) (t : ResourceTracker) (a : Account) (n : Nat),
      u64Max < t.blob_bytes_read + n →
      (ResourceController.track_blob_read ⟨p, t, a⟩ n).1
        = .error (.ArithmeticError .Overflow)) ∧
    (∀ (p : ResourceControlPolicy) (t : ResourceTracker) (a : Account) (n : Nat),
      t.blob_bytes_read + n ≤ u64Max →
      u32Max < t.blobs_read + 1 →
      (ResourceController.track_blob_read ⟨p, t, a⟩ n).1
        = .error (.ArithmeticError .Overflow)) ∧
    (∀ (p : ResourceControlPolicy) (t : ResourceTracker) (a : Account) (blob : Blob),
      p.check_blob_size blob.content.length = .ok () →
      blob.is_committee_blob = false →
      u64Max < t.blob_bytes_published + blob.content.length →
      (ResourceController.track_blob_published ⟨p, t, a⟩ blob).1
        = .error (.ArithmeticError .Overflow)) ∧
    (∀ (p : ResourceControlPolicy) (t : ResourceTracker) (a : Account) (blob : Blob),
      p.check_blob_size blob.content.length = .ok () →
      blob.is_committee_blob = false →
      t.blob_bytes_published + blob.content.length ≤ u64Max →
      u32Max < t.blobs_published + 1 →
      (ResourceController.track_blob_published ⟨p, t, a⟩ blob).1
        = .error (.ArithmeticError .Overflow)) ∧
    (∀ (p : ResourceControlPolicy) (t : ResourceTracker) (a : Account) (d : Int),
      (t.bytes_stored + d < i32Min ∨ i32Max < t.bytes_stored + d) →
      (ResourceController.track_stored_bytes ⟨p, t, a⟩ d).1
        = .error (.ArithmeticError .Overflow)) ∧
    (∀ (p : ResourceControlPolicy) (t : ResourceTracker) (a : Account),
      u32Max < t.service_oracle_queries + 1 →
      (ResourceController.track_service_oracle_call ⟨p, t, a⟩).1
        = .error (.ArithmeticError .Overflow)) ∧
    (∀ (p : ResourceControlPolicy) (t : ResourceTracker) (a : Account) (dur : Nat),
      p.maximum_service_oracle_execution_ms ≤ u64Max →
      durationMax < t.service_oracle_execution + dur →
      (ResourceController.track_service_oracle_execution ⟨p, t, a⟩ dur).1
        = .error .MaximumServiceOracleExecutionTimeExceeded) ∧
    (∀ (p : ResourceControlPolicy) (t : ResourceTracker) (a : Account) (n : Nat),
      u64Max < t.block_size + n →
      (ResourceController.track_block_size ⟨p, t, a⟩ n).1 = .error .BlockTooLarge) := by
  refine ⟨?_, ?_, ?_, ?_, ?_, ?_, ?_, ?_, ?_, ?_, ?_, ?_, ?_, ?_, ?_, ?_, ?_, ?_, ?_, ?_, ?_⟩
  · intro p t a g h
    have hc : ¬ (t.grants + g ≤ amountMax) := by omega
    simp [ResourceController.track_grant, hc]
  · intro p t a op h
    have hc : ¬ (t.operations + 1 ≤ u32Max) := by omega
    simp [ResourceController.track_operation, hc]
  · intro p t a bytes h1 h2 h3
    have hc : ¬ (t.operation_bytes + bytes.length ≤ u64Max) := by omega
    simp only [ResourceController.track_operation, ResourceController.update_balance]
    rw [if_pos h1]
    rcases hres : a.try_sub_assign p.operation with ⟨r, a2⟩
    rw [hres] at h2
    simp only at h2
    subst h2
    simp [hres, hc]
  · intro p t a msg h
    have hc : ¬ (t.messages + 1 ≤ u32Max) := by omega
    simp [ResourceController.track_message, hc]
  · intro p t a bytes h1 h2 h3
    have hc : ¬ (t.message_bytes + bytes.length ≤ u64Max) := by omega
    simp only [ResourceController.track_message, ResourceController.update_balance]
    rw [if_pos h1]
    rcases hres : a.try_sub_assign p.message with ⟨r, a2⟩
    rw [hres] at h2
    simp only at h2
    subst h2
    simp [hres, hc]
  · intro p t a h
    have hc : ¬ (t.http_requests + 1 ≤ u32Max) := by omega
    simp [ResourceController.track_http_request, hc]
  · intro p t a f h
    have hc : ¬ (t.wasm_fuel + f ≤ u64Max) := by omega
    simp [ResourceController.track_fuel, hc]
  · intro p t a f h
    have hc : ¬ (t.evm_fuel + f ≤ u64Max) := by omega
    simp [ResourceController.track_fuel, hc]
  · intro p t a size h
    have hc : ¬ (t.bytes_runtime + size ≤ u32Max) := by omega
    simp [ResourceController.track_size_runtime_operations, hc]
  · intro p t a h
    have hc : ¬ (t.read_operations + 1 ≤ u32Max) := by omega
    simp [ResourceController.track_read_operation, hc]
  · intro p t a n h
    have hc : ¬ (t.write_operations + n ≤ u32Max) := by omega
    simp [ResourceController.track_write_operations, hc]
  · intro p t a n h
    have hc : ¬ (t.bytes_read + n ≤ u64Max) := by omega
    simp [ResourceController.track_bytes_read, hc]
  · intro p t a n h
    have hc : ¬ (t.bytes_written + n ≤ u64Max) := by omega
    simp [ResourceController.track_bytes_written, hc]
  · intro p t a n h
    have hc : ¬ (t.blob_bytes_read + n ≤ u64Max) := by omega
    simp [ResourceController.track_blob_read, hc]
  · intro p t a n h1 h2
    have hc : ¬ (t.blobs_read + 1 ≤ u32Max) := by omega
    simp only [ResourceController.track_blob_read]
    rw [if_pos h1]
    simp [hc]
  · intro p t a blob hcheck hcommittee h
    have hc : ¬ (t.blob_bytes_published + blob.content.length ≤ u64Max) := by omega
    simp only [ResourceController.track_blob_published]
    rw [hcheck]
    simp [hcommittee, hc]
  · intro p t a blob hcheck hcommittee h1 h2
    have hc : ¬ (t.blobs_published + 1 ≤ u32Max) := by omega
    simp only [ResourceController.track_blob_published]
    rw [hcheck]
    simp only [hcommittee, Bool.false_eq_true, if_false]
    rw [if_pos h1]
    simp [hc]
  · intro p t a d h
    have hc : ¬ (i32Min ≤ t.bytes_stored + d ∧ t.bytes_stored + d ≤ i32Max) := by
      rcases h with h | h <;> omega
    simp [ResourceController.track_stored_bytes, hc]
  · intro p t a h
    have hc : ¬ (t.service_oracle_queries + 1 ≤ u32Max) := by omega
    simp [ResourceController.track_service_oracle_call, hc]
  · intro p t a dur hms h
    have hmin : min (t.service_oracle_execution + dur) durationMax = durationMax := by
      omega
    have hlim : ¬ (durationMax < p.maximum_service_oracle_execution_ms * 1000000) := by
      simp only [durationMax, u64Max] at *
      omega
    simp only [ResourceController.track_service_oracle_execution, durationFromMillis]
    rw [hmin]
    simp [hlim]
  · intro p t a n h
    by_cases hn : n ≤ u64Max
    · have hc : ¬ (t.block_size + n ≤ u64Max) := by omega
      simp [ResourceController.track_block_size, hn, hc]
    · simp [ResourceController.track_block_size, hn]

/-- C1 witness: three overflow-checked failures evaluated on concrete inputs:
a grant overflowing `Amount::MAX`, a block-size increment overflowing `u64`,
and an oracle execution time overflowing `Duration::MAX`. -/
theorem counter_overflow_always_checked_witness :
    (ResourceController.track_grant ⟨pol0, t0, .amount 0⟩ (amountMax + 1)).1
      = .error (.ArithmeticError .Overflow) ∧
    (ResourceController.track_block_size ⟨pol0, tBlockFull, .amount 0⟩ 1).1
      = .error .BlockTooLarge ∧
    (ResourceController.track_service_oracle_execution ⟨pol0, t0, .amount 0⟩
        (durationMax + 1)).1
      = .error .MaximumServiceOracleExecutionTimeExceeded :=
  ⟨counter_overflow_always_checked.1 pol0 t0 (.amount 0) (amountMax + 1) (by decide),
   counter_overflow_always_checked.2.2.2.2.2.2.2.2.2.2.2.2.2.2.2.2.2.2.2.2
     pol0 tBlockFull (.amount 0) 1 (by decide),
   counter_overflow_always_checked.2.2.2.2.2.2.2.2.2.2.2.2.2.2.2.2.2.2.2.1
     pol0 t0 (.amount 0) (durationMax + 1) (by decide) (by decide)⟩

end Resources
